/-
Verification of the bvzcomparedirs duplicate-detection engine.

This file shallowly embeds the core of the repository in Lean 4:
  - scanfiles.py   (ScanFiles: scan_file / scan_files / scan_directory / scan_directories,
                    _match_regex, _has_read_permissions, _get_metadata, _is_hidden)
  - scandir.py     (ScanDir.match_regex - the legacy anchored matcher)
  - comparesession.py (Session.do_compare, do_query_scan, append_match, add_unique)
and models, from the spec, the parts of the repository whose source files are
not present (canonicalfiles.py / CanonicalFiles.get_intersection and get_checksum,
options.py / Options, comparefiles.py / compare).

Python dicts are embedded as association lists (insertion order preserved),
Python sets as lists with membership-guarded insertion, generators as functions
returning the list of yielded values (plus traced states where a claim needs
the state at the suspension point), exceptions as Except.
-/
import Mathlib

/-! ## Association lists (Python dict) and sets -/

/-- Lookup in an association list: embedding of `d[k]` / `d.get(k)`. -/
def alookup {α : Type} (l : List (String × α)) (k : String) : Option α :=
  match l with
  | [] => none
  | (k', v) :: rest => if k' = k then some v else alookup rest k

/-- Update/insert in an association list: embedding of `d[k] = v`
(overwrites in place, else appends; insertion order preserved). -/
def aupd {α : Type} (l : List (String × α)) (k : String) (v : α) : List (String × α) :=
  match l with
  | [] => [(k, v)]
  | (k', v') :: rest => if k' = k then (k', v) :: rest else (k', v') :: aupd rest k v

/-- Python `set.add`: insert unless already a member. -/
def sadd (l : List String) (x : String) : List String :=
  if x ∈ l then l else l ++ [x]

/-! ## Regular expressions

A standard regular-expression AST with a Brzozowski-derivative matcher.
`rmatch r s` holds when `r` matches the WHOLE string `s`; the Python
`re.search` / `re.match` primitives are defined on top of it below. -/

inductive Regex where
  | emp : Regex
  | eps : Regex
  | chr (c : Char) : Regex
  | alt (r1 r2 : Regex) : Regex
  | cat (r1 r2 : Regex) : Regex
  | star (r : Regex) : Regex
deriving Repr, DecidableEq

/-- Whether a regex accepts the empty string. -/
def Regex.nullable : Regex → Bool
  | .emp => false
  | .eps => true
  | .chr _ => false
  | .alt r1 r2 => r1.nullable || r2.nullable
  | .cat r1 r2 => r1.nullable && r2.nullable
  | .star _ => true

/-- Brzozowski derivative of a regex with respect to one character. -/
def Regex.deriv : Regex → Char → Regex
  | .emp, _ => .emp
  | .eps, _ => .emp
  | .chr c, a => if c = a then .eps else .emp
  | .alt r1 r2, a => .alt (r1.deriv a) (r2.deriv a)
  | .cat r1 r2, a =>
      if r1.nullable then .alt (.cat (r1.deriv a) r2) (r2.deriv a)
      else .cat (r1.deriv a) r2
  | .star r, a => .cat (r.deriv a) (.star r)

/-- Whole-string match of a regex against a character list. -/
def rmatch (r : Regex) (s : List Char) : Bool :=
  (s.foldl Regex.deriv r).nullable

/-- Whether `r` matches some prefix of the character list `t`
(the anchored-at-the-start acceptance used by Python `re.match`). -/
def matchesSomePre (r : Regex) (t : List Char) : Bool :=
  (List.range (t.length + 1)).any fun j => rmatch r (t.take j)

/-- Embedding of Python `re.search(regex, s)`: the regex matches when it
matches starting at ANY position of `s` (unanchored). -/
def re_search (r : Regex) (s : String) : Bool :=
  (List.range (s.toList.length + 1)).any fun i => matchesSomePre r (s.toList.drop i)

/-- Embedding of Python `re.match(regex, s)`: the regex must match starting
at the very beginning of `s` (anchored at the start). -/
def re_match (r : Regex) (s : String) : Bool :=
  matchesSomePre r s.toList

/-- Embedding of `ScanFiles._match_regex` (scanfiles.py:196-216): returns True
if any item matches any regex, using `re.search`. -/
def _match_regex (regexes : List Regex) (items : List String) : Bool :=
  regexes.any fun regex => items.any fun item => re_search regex item

/-- Embedding of `ScanDir.match_regex` (scandir.py:109-128): returns True
if any item matches any regex, using `re.match` (anchored). -/
def ScanDir.match_regex (regexes : List Regex) (items : List String) : Bool :=
  regexes.any fun regex => items.any fun item => re_match regex item

/-! ## Path helpers (os.path) -/

/-- Index just past the last `/` of a path, i.e. Python `p.rfind('/') + 1`. -/
def lastSlashSplitIdx (cs : List Char) : Nat :=
  match cs with
  | [] => 0
  | c :: rest =>
      let r := lastSlashSplitIdx rest
      if r = 0 then (if c = '/' then 1 else 0) else r + 1

/-- Embedding of Python `os.path.split` (posixpath): splits at the final
slash; the head keeps a lone `/` root but otherwise drops trailing slashes. -/
def ospath_split (p : String) : String × String :=
  let cs := p.toList
  let i := lastSlashSplitIdx cs
  let head := cs.take i
  let tail := cs.drop i
  let head' := if head.all (· = '/') then head else head.reverse.dropWhile (· = '/') |>.reverse
  (String.mk head', String.mk tail)

/-- Embedding of Python `os.path.splitext` applied to a base name: splits the
extension at the last dot, except that a name consisting of leading dots only
before that dot has no extension. -/
def ospath_splitext (s : String) : String × String :=
  let cs := s.toList
  let i := (List.range cs.length).foldl (fun acc j => if cs.get? j = some '.' then j else acc) 0
  if cs.get? i = some '.' ∧ ¬ (cs.take i).all (· = '.') then
    (String.mk (cs.take i), String.mk (cs.drop i))
  else
    (s, "")

/-- Embedding of `ScanFiles._is_hidden` (scanfiles.py:62-76): the base name
starts with a dot. -/
def _is_hidden (file_p : String) : Bool :=
  (ospath_split file_p).2.toList.headD ' ' = '.'

/-! ## Filesystem model -/

/-- One `os.stat(..., follow_symlinks=False)` result. Timestamps are modelled
as integers. -/
structure Stat where
  st_size : Nat
  st_ctime : Int
  st_mtime : Int
  st_mode : Nat
  st_uid : Nat
  st_gid : Nat
deriving Repr, DecidableEq

/-- A static snapshot of the filesystem as seen by the engine: lstat results
per existing path, and the byte content of readable regular files. -/
structure FS where
  stats : List (String × Stat)
  bytes : List (String × List Nat)

/-- `stat.S_ISLNK`: the file-type nibble of the mode equals `0o120000`. -/
def S_ISLNK (mode : Nat) : Bool := Nat.land mode 61440 = 40960

/-- `stat.S_ISDIR`: the file-type nibble of the mode equals `0o040000`. -/
def S_ISDIR (mode : Nat) : Bool := Nat.land mode 61440 = 16384

/-- Embedding of Python `os.path.exists` over the filesystem model. -/
def ospath_exists (fs : FS) (p : String) : Bool :=
  (alookup fs.stats p).isSome

/-- Embedding of Python `os.path.islink` over the filesystem model. -/
def ospath_islink (fs : FS) (p : String) : Bool :=
  match alookup fs.stats p with
  | some st => S_ISLNK st.st_mode
  | none => false

/-- Simplified model of Python `os.path.relpath`: strips the root (plus its
separator) when it prefixes the path. No claim in this development depends on
its value. -/
def ospath_relpath (p root_p : String) : String :=
  if (root_p ++ "/").isPrefixOf p then (p.toList.drop (root_p.length + 1)).asString else p

/-- Embedding of the metadata dictionary built by `ScanFiles._get_metadata`
(scanfiles.py:148-180). -/
structure Metadata where
  name : String
  file_type : String
  parent : String
  rel_path : String
  size : Nat
  ctime : Int
  mtime : Int
  isdir : Bool
  islink : Bool
  st_mode : Nat
  file_uid : Nat
  file_gid : Nat
deriving Repr, DecidableEq

/-- Embedding of `ScanFiles._get_metadata` (scanfiles.py:148-180): stats the
file (no-follow); `none` models the `FileNotFoundError` raised when the path
has vanished. -/
def _get_metadata (fs : FS) (file_p root_p : String) : Option Metadata :=
  (alookup fs.stats file_p).map fun file_stat =>
    let nm := (ospath_split file_p).2
    { name := nm
      file_type := (ospath_splitext nm).2
      parent := (ospath_split (ospath_split file_p).1).2
      rel_path := ospath_relpath file_p root_p
      size := file_stat.st_size
      ctime := file_stat.st_ctime
      mtime := file_stat.st_mtime
      isdir := S_ISDIR file_stat.st_mode
      islink := S_ISLNK file_stat.st_mode
      st_mode := file_stat.st_mode
      file_uid := file_stat.st_uid
      file_gid := file_stat.st_gid }

/-- Embedding of `ScanFiles._has_read_permissions` (scanfiles.py:115-145):
`stat.S_IRUSR = 0o400`, `stat.S_IRGRP = 0o040`, `stat.S_IROTH = 0o004`. -/
def _has_read_permissions (st_mode file_uid file_gid uid gid : Nat) : Bool :=
  if file_uid = uid then Nat.land 256 st_mode ≠ 0
  else if file_gid = gid then Nat.land 32 st_mode ≠ 0
  else Nat.land 4 st_mode ≠ 0

/-! ## Scanner options and state -/

/-- Modelled from the spec: `options.py` (the `Options` value object) is not
under src/. Per §3 "Configuration" it bundles the filter/behaviour options
read by scanfiles.py (`self.options.skip_sub_dir`, `.skip_hidden`,
`.skip_zero_len`, `.incl_dir_regexes`, `.excl_dir_regexes`,
`.incl_file_regexes`, `.excl_file_regexes`, `.report_frequency`). -/
structure Options where
  skip_sub_dir : Bool
  skip_hidden : Bool
  skip_zero_len : Bool
  incl_dir_regexes : Option (List Regex)
  excl_dir_regexes : Option (List Regex)
  incl_file_regexes : Option (List Regex)
  excl_file_regexes : Option (List Regex)
  report_frequency : Nat

/-- Python truthiness of an optional list (`if self.options.incl_dir_regexes:`):
`None` and the empty list are falsy. -/
def optListTruthy {α : Type} : Option (List α) → Bool
  | none => false
  | some l => ¬ l.isEmpty

/-- The mutable counters, error sets and file dictionary of a `ScanFiles`
instance (scanfiles.py:17-45 plus the `files` dict of queryfiles.py). -/
structure ScanState where
  checked_count : Nat
  initial_count : Nat
  skipped_links : Nat
  error_count : Nat
  skipped_zero_len : Nat
  skipped_hidden : Nat
  skipped_exclude_dirs : Nat
  skipped_include_dirs : Nat
  skipped_exclude_files : Nat
  skipped_include_files : Nat
  file_not_found_err_files : List String
  file_permission_err_files : List String
  files : List (String × Metadata)
deriving Repr, DecidableEq

/-- The state of a freshly constructed `ScanFiles` object. -/
def ScanState.init : ScanState :=
  { checked_count := 0, initial_count := 0, skipped_links := 0, error_count := 0
    skipped_zero_len := 0, skipped_hidden := 0, skipped_exclude_dirs := 0
    skipped_include_dirs := 0, skipped_exclude_files := 0, skipped_include_files := 0
    file_not_found_err_files := [], file_permission_err_files := [], files := [] }

/-- Embedding of `ScanFiles.scan_file` (scanfiles.py:359-446), with
`QueryFiles._append_to_scan` (queryfiles.py:24-39) as the dictionary insert. -/
def scan_file (opts : Options) (fs : FS) (uid gid : Nat) (st : ScanState)
    (file_p root_p : String) : ScanState :=
  let st := { st with checked_count := st.checked_count + 1 }
  let file_d := (ospath_split file_p).1
  let file_n := (ospath_split file_p).2
  if opts.skip_hidden && _is_hidden file_p then
    { st with skipped_hidden := st.skipped_hidden + 1 }
  else if optListTruthy opts.incl_dir_regexes &&
      !(_match_regex (opts.incl_dir_regexes.getD []) [file_d]) then
    { st with skipped_include_files := st.skipped_include_files + 1 }
  else if opts.excl_dir_regexes.isSome &&
      _match_regex (opts.excl_dir_regexes.getD []) [file_d] then
    -- source slip kept faithfully: scanfiles.py:399 increments
    -- skipped_include_files in the exclude-dir branch
    { st with skipped_include_files := st.skipped_include_files + 1 }
  else if opts.incl_file_regexes.isSome &&
      !(_match_regex (opts.incl_file_regexes.getD []) [file_n]) then
    { st with skipped_include_files := st.skipped_include_files + 1 }
  else if opts.excl_file_regexes.isSome &&
      _match_regex (opts.excl_file_regexes.getD []) [file_n] then
    { st with skipped_exclude_files := st.skipped_exclude_files + 1 }
  else
    match _get_metadata fs file_p root_p with
    | none =>
        { st with error_count := st.error_count + 1
                  file_not_found_err_files := sadd st.file_not_found_err_files file_p }
    | some attrs =>
        if attrs.islink then
          { st with skipped_links := st.skipped_links + 1 }
        else if !(_has_read_permissions attrs.st_mode attrs.file_uid attrs.file_gid uid gid) then
          { st with error_count := st.error_count + 1
                    file_permission_err_files := sadd st.file_permission_err_files file_p }
        else if opts.skip_zero_len && attrs.size = 0 then
          { st with skipped_zero_len := st.skipped_zero_len + 1 }
        else
          { st with initial_count := st.initial_count + 1
                    files := aupd st.files file_p attrs }

/-- Embedding of `ScanFiles.scan_files` (scanfiles.py:324-356) as the list of
yielded checkpoints plus the final state. The symlink branch performs a
`return`, which terminates the WHOLE generator, abandoning the remaining
entries of the list (kept faithfully). -/
def scan_files (opts : Options) (fs : FS) (uid gid : Nat) (root_p : String)
    (st : ScanState) : List String → List Nat × ScanState
  | [] => ([], st)
  | file_p :: rest =>
      if ospath_islink fs file_p then
        ([], { st with skipped_links := st.skipped_links + 1 })
      else
        let st' := scan_file opts fs uid gid st file_p root_p
        let (ys, fin) := scan_files opts fs uid gid root_p st' rest
        (if st'.checked_count % opts.report_frequency = 0
         then st'.checked_count :: ys else ys, fin)

/-! ## Content comparator and comparison index (spec-modelled) -/

/-- A collision-free model of the content digest used by the comparator:
injective and never falsy (a real hex digest is a nonempty string). -/
def checksumOf (b : List Nat) : List Nat := 1 :: b

/-- Modelled from the spec: `comparefiles.py` (`compare(file_a_path,
file_b_path, file_b_checksum, single_pass)`) is not under src/. Per §4.3 it
fails with a precondition error (AssertionError, `Except.error`) if either
path does not exist at the moment of the call; with a known checksum for B it
streams A and returns A's digest exactly when it equals B's cached value;
without one it streams A and B together and returns A's digest exactly when
the contents are byte-identical; a non-match is the falsy result `none`. -/
def comparefiles_compare (fs : FS) (file_a_path file_b_path : String)
    (file_b_checksum : Option (List Nat)) : Except Unit (Option (List Nat)) :=
  if !(ospath_exists fs file_a_path && ospath_exists fs file_b_path) then .error ()
  else
    let a := (alookup fs.bytes file_a_path).getD []
    match file_b_checksum with
    | some chk => .ok (if checksumOf a = chk then some (checksumOf a) else none)
    | none =>
        let b := (alookup fs.bytes file_b_path).getD []
        .ok (if a = b then some (checksumOf a) else none)

/-- Wildcard-or-exact attribute test of the comparison index: a `none`
attribute is a wildcard, a `some` value must match exactly. -/
def matchAttr {α : Type} [DecidableEq α] (q : Option α) (v : α) : Bool :=
  match q with
  | none => true
  | some x => x = v

/-- Modelled from the spec: `canonicalfiles.py` (`CanonicalFiles.
get_intersection`) is not under src/. Per §4.2 it returns the ordered
sequence of canonical paths whose size equals the query size and whose
attributes agree with every non-wildcard query attribute among
{name, type, parent, relative-path, ctime, mtime}. -/
def get_intersection (canonical_files : List (String × Metadata)) (size : Nat)
    (name file_type parent rel_path : Option String) (ctime mtime : Option Int) :
    List String :=
  (canonical_files.filter fun pm =>
    pm.2.size = size && matchAttr name pm.2.name && matchAttr file_type pm.2.file_type
      && matchAttr parent pm.2.parent && matchAttr rel_path pm.2.rel_path
      && matchAttr ctime pm.2.ctime && matchAttr mtime pm.2.mtime).map Prod.fst

/-! ## Session.do_compare -/

/-- Exceptions surfaced by the embedded Session operations. -/
inductive PyErr where
  | typeError : PyErr
  | assertionError : PyErr
deriving Repr, DecidableEq

/-- A Python value as stored in the `name` / `file_type` / `parent` /
`rel_path` / `ctime` / `mtime` local variables of `Session.do_compare`,
which start as the caller's booleans and are reassigned to metadata values
or `None` inside the loop. -/
inductive PyV where
  | bool (b : Bool) : PyV
  | str (s : String) : PyV
  | num (n : Int) : PyV
  | noneV : PyV
deriving Repr, DecidableEq

/-- Python truthiness of such a value. -/
def PyV.truthy : PyV → Bool
  | .bool b => b
  | .str s => !s.isEmpty
  | .num n => n != 0
  | .noneV => false

/-- The value handed to `get_intersection` for a string attribute. -/
def PyV.toOptStr : PyV → Option String
  | .str s => some s
  | _ => none

/-- The value handed to `get_intersection` for a timestamp attribute. -/
def PyV.toOptInt : PyV → Option Int
  | .num n => some n
  | _ => none

/-- The six attribute-flag variables of `Session.do_compare`. -/
structure Flags where
  name : PyV
  file_type : PyV
  parent : PyV
  rel_path : PyV
  ctime : PyV
  mtime : PyV
deriving Repr, DecidableEq

/-- The flag variables as bound at entry to `do_compare` from the caller's
boolean arguments. -/
def Flags.init (name file_type parent rel_path ctime mtime : Bool) : Flags :=
  ⟨.bool name, .bool file_type, .bool parent, .bool rel_path, .bool ctime, .bool mtime⟩

/-- Embedding of `if flag: flag = metadata[attr]  else: flag = None`
(comparesession.py:221-249) for a string attribute. -/
def updateStrFlag (v : PyV) (s : String) : PyV :=
  if v.truthy then .str s else .noneV

/-- The same reassignment for a timestamp attribute. -/
def updateNumFlag (v : PyV) (n : Int) : PyV :=
  if v.truthy then .num n else .noneV

/-- The result sets and counters of a `Session` touched by `do_compare`
(comparesession.py:89-96), plus the canonical scan's checksum cache. -/
structure CompareState where
  actual_matches : List (String × List String)
  unique : List String
  skipped_self : List String
  source_error_files : List String
  possible_match_error_files : List String
  pre_computed_checksum_count : Nat
  checksum : List (String × List Nat)
deriving Repr, DecidableEq

/-- The session result state as initialised by `Session.__init__`. -/
def CompareState.init : CompareState :=
  { actual_matches := [], unique := [], skipped_self := [], source_error_files := []
    possible_match_error_files := [], pre_computed_checksum_count := 0, checksum := [] }

/-- Embedding of `Session.add_unique` (comparesession.py:155-165). -/
def add_unique (st : CompareState) (file_p : String) : CompareState :=
  { st with unique := sadd st.unique file_p }

/-- Embedding of `Session.append_match` (comparesession.py:168-183). -/
def append_match (st : CompareState) (file_p match_p : String) : CompareState :=
  let prior := (alookup st.actual_matches file_p).getD []
  { st with actual_matches := aupd st.actual_matches file_p (prior ++ [match_p]) }

/-- Modelled from the spec: `CanonicalFiles.get_checksum` is not under src/;
per §4.2 it returns the cached checksum for a canonical path or none
(matching `ScanFiles.retrieve_checksum_from_cache`, scanfiles.py:97-112). -/
def get_checksum (st : CompareState) (file_p : String) : Option (List Nat) :=
  alookup st.checksum file_p

/-- Embedding of the body of the candidate loop of `Session.do_compare`
(comparesession.py:265-297). The accumulator carries the session state and
the local `match` and `skip` booleans. -/
def do_compare_candidate (fs : FS) (skip_checksum : Bool) (file_p : String)
    (acc : CompareState × Bool × Bool) (possible_match_p : String) :
    CompareState × Bool × Bool :=
  let (st, match_, skip) := acc
  if file_p = possible_match_p then
    ({ st with skipped_self := sadd st.skipped_self file_p }, match_, true)
  else if skip_checksum then
    (append_match st file_p possible_match_p, true, skip)
  else
    let possible_match_checksum := get_checksum st possible_match_p
    let st := if possible_match_checksum.isSome then
        { st with pre_computed_checksum_count := st.pre_computed_checksum_count + 1 }
      else st
    match comparefiles_compare fs file_p possible_match_p possible_match_checksum with
    | .error _ =>
        let st := if !(ospath_exists fs file_p) then
            { st with source_error_files := sadd st.source_error_files file_p }
          else st
        let st := if !(ospath_exists fs possible_match_p) then
            { st with possible_match_error_files := sadd st.possible_match_error_files possible_match_p }
          else st
        (st, match_, skip)
    | .ok checksum =>
        match checksum with
        | some chk =>
            (append_match { st with checksum := aupd st.checksum possible_match_p chk }
              file_p possible_match_p, true, skip)
        | none => (st, match_, skip)

/-- The reassignment of all six flag variables performed at the top of each
`do_compare` loop iteration (comparesession.py:221-249). -/
def reassignFlags (fl : Flags) (metadata : Metadata) : Flags :=
  { name := updateStrFlag fl.name metadata.name
    file_type := updateStrFlag fl.file_type metadata.file_type
    parent := updateStrFlag fl.parent metadata.parent
    rel_path := updateStrFlag fl.rel_path metadata.rel_path
    ctime := updateNumFlag fl.ctime metadata.ctime
    mtime := updateNumFlag fl.mtime metadata.mtime }

/-- The candidate lookup of one `do_compare` iteration
(comparesession.py:251-257): size from the query file's metadata, the other
attributes from the current values of the flag variables. -/
def candidatesOf (canonical_files : List (String × Metadata)) (fl : Flags)
    (metadata : Metadata) : List String :=
  get_intersection canonical_files metadata.size
    fl.name.toOptStr fl.file_type.toOptStr fl.parent.toOptStr fl.rel_path.toOptStr
    fl.ctime.toOptInt fl.mtime.toOptInt

/-- Embedding of the per-query-file body of `Session.do_compare`
(comparesession.py:221-301): reassign the flag variables, ask the index for
candidates, run the candidate loop (whose result `res` carries the session
state and the local `match` and `skip` booleans), and classify into
Unique. -/
def do_compare_file (fs : FS) (canonical_files : List (String × Metadata))
    (skip_checksum : Bool) (acc : Flags × CompareState)
    (entry : String × Metadata) : Flags × CompareState :=
  let (fl, st) := acc
  let (file_p, metadata) := entry
  let fl : Flags := reassignFlags fl metadata
  let possible_matches := candidatesOf canonical_files fl metadata
  if possible_matches.length = 0 then
    (fl, add_unique st file_p)
  else
    let res := possible_matches.foldl (do_compare_candidate fs skip_checksum file_p)
      (st, false, false)
    if ¬ res.2.1 ∧ (¬ res.2.2 ∨ (res.2.2 ∧ possible_matches.length > 1)) then
      (fl, add_unique res.1 file_p)
    else
      (fl, res.1)

/-- Folding `do_compare_file` over a list of query files (the state reached
after completely processing those files, starting from the given flags and
session state). -/
def do_compare_files (fs : FS) (canonical_files : List (String × Metadata))
    (skip_checksum : Bool) (acc : Flags × CompareState)
    (l : List (String × Metadata)) : Flags × CompareState :=
  l.foldl (do_compare_file fs canonical_files skip_checksum) acc

/-- Embedding of the generator loop of `Session.do_compare`
(comparesession.py:214-301): returns the trace of yields - each checkpoint
value paired with the session state at the moment of that yield - plus the
final state. The source increments `count` and yields it at the TOP of the
loop, before the body processes the current query file. -/
def do_compare_loop (fs : FS) (canonical_files : List (String × Metadata))
    (skip_checksum : Bool) : Flags → CompareState → Nat → List (String × Metadata) →
    List (Nat × CompareState) × CompareState
  | _, st, _, [] => ([], st)
  | fl, st, count, entry :: rest =>
      let count := count + 1
      let (fl', st') := do_compare_file fs canonical_files skip_checksum (fl, st) entry
      let (tr, fin) := do_compare_loop fs canonical_files skip_checksum fl' st' count rest
      ((count, st) :: tr, fin)

/-- Embedding of `Session.do_compare` (comparesession.py:186-301): the entry
assertion `if skip_checksum: assert name is True`, then the traced loop over
the query scan's files dictionary. -/
def do_compare (fs : FS) (canonical_files : List (String × Metadata))
    (name file_type parent rel_path ctime mtime skip_checksum : Bool)
    (query_files : List (String × Metadata)) :
    Except PyErr (List (Nat × CompareState) × CompareState) :=
  if skip_checksum ∧ ¬ name then .error .assertionError
  else .ok (do_compare_loop fs canonical_files skip_checksum
    (Flags.init name file_type parent rel_path ctime mtime) CompareState.init 0 query_files)

/-! ## Session.do_query_scan and Python call binding -/

/-- Python call binding: a call succeeds only if every parameter without a
default value receives an argument. -/
def pythonBindOk (required provided : List String) : Bool :=
  required.all (provided.contains ·)

/-- The parameters of `ScanFiles.scan_directories` (scanfiles.py:245-248)
that have no default value. -/
def scan_directories_required_args : List String := ["scan_dirs", "uid", "gid"]

/-- The parameters of `ScanFiles.scan_files` (scanfiles.py:324-328) that have
no default value. -/
def scan_files_required_args : List String := ["files_p", "root_p", "uid", "gid"]

/-- Embedding of `Session.do_query_scan` (comparesession.py:121-141) at the
call-binding level. The body partitions `query_items` by `os.path.isdir` and
then calls `self.query_scan.scan_directories(scan_dirs=directories_p)` and
`self.query_scan.scan_files(files_p=files_p)`. `QueryFiles` (queryfiles.py)
overrides neither generator, so Python binds the calls against the
scanfiles.py signatures, raising `TypeError` when a parameter without a
default is missing; the generator bodies are never reached because the first
binding already fails. -/
def do_query_scan (query_items : List String) (isdir : String → Bool) :
    Except PyErr (List Nat) :=
  let directories_p := query_items.filter isdir
  let _files_p := query_items.filter (fun q => !(isdir q))
  if !(pythonBindOk scan_directories_required_args ["scan_dirs"]) then .error .typeError
  else if !(pythonBindOk scan_files_required_args ["files_p"]) then .error .typeError
  else .ok (directories_p.map fun _ => 0)

/-! ## scan_directory -/

/-- A directory entry as produced by `os.scandir`: `dir` is an entry for
which `entry.is_dir(follow_symlinks=False)` is true (with its own children),
`file` is any other entry (regular file, symlink, ...), carrying its full
`entry.path`. -/
inductive Entry where
  | file (path : String) : Entry
  | dir (path : String) (children : List Entry) : Entry
deriving Repr

mutual

/-- Embedding of the body of the `for entry in os.scandir(scan_dir)` loop of
`ScanFiles.scan_directory` (scanfiles.py:300-321) for one entry: returns the
trace of yields (checkpoint value paired with the state at the yield) and
the state after the entry is handled. -/
def scanEntry (opts : Options) (fs : FS) (uid gid : Nat) (root_p : String)
    (st : ScanState) : Entry → List (Nat × ScanState) × ScanState
  | .file p =>
      let st' := scan_file opts fs uid gid st p root_p
      (if st'.checked_count % opts.report_frequency = 0
       then [(st'.checked_count, st')] else [], st')
  | .dir p children =>
      if !opts.skip_sub_dir then
        if optListTruthy opts.incl_dir_regexes &&
            !(_match_regex (opts.incl_dir_regexes.getD []) [p]) then
          let st' := { st with skipped_include_dirs := st.skipped_include_dirs + 1 }
          ([(st'.checked_count, st')], st')
        else if opts.excl_dir_regexes.isSome &&
            _match_regex (opts.excl_dir_regexes.getD []) [p] then
          let st' := { st with skipped_exclude_dirs := st.skipped_exclude_dirs + 1 }
          ([(st'.checked_count, st')], st')
        else
          scanEntries opts fs uid gid root_p st children
      else
        let st' := scan_file opts fs uid gid st p root_p
        (if st'.checked_count % opts.report_frequency = 0
         then [(st'.checked_count, st')] else [], st')

/-- Embedding of `ScanFiles.scan_directory` (scanfiles.py:270-321) over the
listing of a directory: handles each entry in order, threading the state and
concatenating the yield traces (`yield from` for recursion into
subdirectories). -/
def scanEntries (opts : Options) (fs : FS) (uid gid : Nat) (root_p : String)
    (st : ScanState) : List Entry → List (Nat × ScanState) × ScanState
  | [] => ([], st)
  | e :: rest =>
      let (t1, st1) := scanEntry opts fs uid gid root_p st e
      let (t2, st2) := scanEntries opts fs uid gid root_p st1 rest
      (t1 ++ t2, st2)

end

/-- `ScanFiles.scan_directory` on a directory whose `os.scandir` listing is
`children`. -/
def scan_directory (opts : Options) (fs : FS) (uid gid : Nat) (root_p : String)
    (st : ScanState) (children : List Entry) : List (Nat × ScanState) × ScanState :=
  scanEntries opts fs uid gid root_p st children

mutual

/-- The reference sequence of unit-boundary states for one entry: the scan
state after each completed unit of work (one file fully scanned by
`scan_file`, or one directory fully skipped by the filters), in order. -/
def unitStatesEntry (opts : Options) (fs : FS) (uid gid : Nat) (root_p : String)
    (st : ScanState) : Entry → List ScanState × ScanState
  | .file p =>
      let st' := scan_file opts fs uid gid st p root_p
      ([st'], st')
  | .dir p children =>
      if !opts.skip_sub_dir then
        if optListTruthy opts.incl_dir_regexes &&
            !(_match_regex (opts.incl_dir_regexes.getD []) [p]) then
          let st' := { st with skipped_include_dirs := st.skipped_include_dirs + 1 }
          ([st'], st')
        else if opts.excl_dir_regexes.isSome &&
            _match_regex (opts.excl_dir_regexes.getD []) [p] then
          let st' := { st with skipped_exclude_dirs := st.skipped_exclude_dirs + 1 }
          ([st'], st')
        else
          unitStatesEntries opts fs uid gid root_p st children
      else
        let st' := scan_file opts fs uid gid st p root_p
        ([st'], st')

/-- The reference sequence of unit-boundary states for a directory listing. -/
def unitStatesEntries (opts : Options) (fs : FS) (uid gid : Nat) (root_p : String)
    (st : ScanState) : List Entry → List ScanState × ScanState
  | [] => ([], st)
  | e :: rest =>
      let (u1, st1) := unitStatesEntry opts fs uid gid root_p st e
      let (u2, st2) := unitStatesEntries opts fs uid gid root_p st1 rest
      (u1 ++ u2, st2)

end

/-! ## Concrete fixtures used by the claim theorems -/

/-- A regular-file stat (mode `0o100644`) of a given size. -/
def statReg (n : Nat) (ct mt : Int) (u g : Nat) : Stat :=
  { st_size := n, st_ctime := ct, st_mtime := mt, st_mode := 33188, st_uid := u, st_gid := g }

/-- A symlink stat (mode `0o120777`). -/
def statLink : Stat :=
  { st_size := 1, st_ctime := 0, st_mtime := 0, st_mode := 41471, st_uid := 1000, st_gid := 1000 }

/-- Metadata of the query file `/q/a` of the single-file fixtures. -/
def mdA : Metadata :=
  { name := "a", file_type := "", parent := "q", rel_path := "a",
    size := 5, ctime := 100, mtime := 200, isdir := false, islink := false,
    st_mode := 33188, file_uid := 1000, file_gid := 1000 }

/-- Metadata of a canonical file `/c/b` with the same size as `mdA`. -/
def mdB : Metadata := { mdA with name := "b" }

/-- A filesystem holding only `/q/a`. -/
def fsA : FS := { stats := [("/q/a", statReg 5 100 200 1000 1000)], bytes := [("/q/a", [1, 2, 3, 4, 5])] }

/-- A filesystem in which the query file `/q/a` has vanished but the
canonical candidate `/c/b` exists. -/
def fsVanishedA : FS :=
  { stats := [("/c/b", statReg 5 1 2 0 0)], bytes := [("/c/b", [1, 2, 3, 4, 5])] }

/-- Metadata of an extensionless query file (its `file_type` is the empty
string, which is falsy in Python). -/
def mdNoext : Metadata :=
  { mdA with name := "noext", file_type := "", rel_path := "noext", size := 3, ctime := 10, mtime := 20 }

/-- Metadata of the query file `/q/b.txt`. -/
def mdTxt : Metadata :=
  { mdA with name := "b.txt", file_type := ".txt", rel_path := "b.txt", size := 4, ctime := 11, mtime := 21 }

/-- Metadata of the canonical file `/c/b.jpg`: same size and content as
`/q/b.txt` but a different extension. -/
def mdJpg : Metadata :=
  { mdA with name := "b.jpg", file_type := ".jpg", parent := "c", rel_path := "b.jpg", size := 4, ctime := 12, mtime := 22 }

/-- Filesystem for the flag-shadowing scenario. -/
def fsShadow : FS :=
  { stats := [("/q/noext", statReg 3 10 20 1000 1000), ("/q/b.txt", statReg 4 11 21 1000 1000),
              ("/c/b.jpg", statReg 4 12 22 1000 1000)],
    bytes := [("/q/noext", [7, 7, 7]), ("/q/b.txt", [9, 9, 9, 9]), ("/c/b.jpg", [9, 9, 9, 9])] }

/-- Default options: no filters, report every file. -/
def optsDefault : Options :=
  { skip_sub_dir := false, skip_hidden := false, skip_zero_len := true,
    incl_dir_regexes := none, excl_dir_regexes := none, incl_file_regexes := none,
    excl_file_regexes := none, report_frequency := 1 }

/-- Filesystem with a symlink `/q/link` followed by a regular file `/q/b`. -/
def fsLinkThenFile : FS :=
  { stats := [("/q/link", statLink), ("/q/b", statReg 4 1 1 1000 1000)],
    bytes := [("/q/b", [1, 2, 3, 4])] }

/-- The literal regex `sec`. -/
def rSec : Regex := Regex.cat (Regex.chr 's') (Regex.cat (Regex.chr 'e') (Regex.chr 'c'))

/-- Options configuring `sec` as a directory-exclude regex. -/
def optsExclSec : Options := { optsDefault with excl_dir_regexes := some [rSec] }

/-- Filesystem holding `/data/sec/f.txt`, whose directory matches `sec`. -/
def fsSec : FS := { stats := [("/data/sec/f.txt", statReg 4 1 1 1000 1000)], bytes := [] }

/-! ## Claim C1 -/

/-- Claim C1: the claim states that iterating `do_query_scan()` to
exhaustion yields progress checkpoints and completes the query ScanResult
without raising. The code contradicts it (and its own scanner API): for
EVERY validly constructed Session, the first pull of `do_query_scan`
raises `TypeError`, because comparesession.py:137 calls
`scan_directories(scan_dirs=...)` and comparesession.py:140 calls
`scan_files(files_p=...)` while scanfiles.py requires `uid`, `gid` (and
`root_p`) with no defaults. -/
theorem do_query_scan_always_raises_type_error (query_items : List String)
    (isdir : String → Bool) :
    do_query_scan query_items isdir = Except.error PyErr.typeError := rfl

/-! ## Claim C4 -/

/-- Claim C4: the claim states that a symlink entry in `scan_files` is
counted as a skipped link and the scan continues with all remaining
entries. The code contradicts it: the symlink branch executes `return`
(scanfiles.py:352), terminating the whole generator, so the regular file
`/q/b` after the symlink is never scanned (`checked_count` stays 0 and the
files mapping stays empty), although scanning `["/q/b"]` alone checks and
records it. -/
theorem scan_files_symlink_return_aborts_scan :
    scan_files optsDefault fsLinkThenFile 1000 1000 "/q" ScanState.init ["/q/link", "/q/b"] =
      ([], { ScanState.init with skipped_links := 1 }) ∧
    (scan_files optsDefault fsLinkThenFile 1000 1000 "/q" ScanState.init ["/q/b"]).2.checked_count = 1 ∧
    ((scan_files optsDefault fsLinkThenFile 1000 1000 "/q" ScanState.init ["/q/b"]).2.files.map
      Prod.fst) = ["/q/b"] := by
  refine ⟨?_, ?_, ?_⟩ <;> rfl

/-! ## Claim C9 -/

/-- Claim C9: the claim states that an entry skipped because an exclude
regex matched increments the exclude-filter-hit counter and never an
include-filter-miss counter. The code contradicts it in `scan_file`: the
exclude-dir branch (scanfiles.py:397-400) increments
`skipped_include_files` instead of `skipped_exclude_files`, as this
evaluation of the code at a file whose directory matches the configured
exclude regex shows. -/
theorem scan_file_exclude_dir_hit_bumps_include_counter :
    (scan_file optsExclSec fsSec 1000 1000 ScanState.init "/data/sec/f.txt" "/data").skipped_include_files = 1 ∧
    (scan_file optsExclSec fsSec 1000 1000 ScanState.init "/data/sec/f.txt" "/data").skipped_exclude_files = 0 ∧
    (scan_file optsExclSec fsSec 1000 1000 ScanState.init "/data/sec/f.txt" "/data").files = [] := by
  refine ⟨?_, ?_, ?_⟩ <;> rfl

/-! ## Claim C10 -/

/-- Claim C10: the error sets and the Unique set can overlap: here the query
file `/q/a` has vanished from disk, its only candidate `/c/b` still exists,
every comparator call raises, `/q/a` lands in the source-error set, and the
candidate loop ends with no recorded match, so `/q/a` is also added to
Unique. -/
theorem unique_and_source_error_can_overlap :
    (do_compare fsVanishedA [("/c/b", mdB)] false false false false false false false
        [("/q/a", mdA)]).map
      (fun out => (out.2.unique, out.2.source_error_files, out.2.possible_match_error_files)) =
      Except.ok (["/q/a"], ["/q/a"], []) := by rfl

/-! ## Claim C2 -/

/-- Claim C2, counterexample: the claim states that a query file whose only
candidate is its own path, with no positive match recorded, is placed in
the Unique set. Evaluating `do_compare` on a session in which `/q/a` is
both the query file and the sole canonical file shows that the code leaves
the Unique set EMPTY (the condition `not skip or (skip and len > 1)` at
comparesession.py:300 is false for a self-only candidate set); the file is
recorded only in the self-skip set. -/
theorem self_only_candidate_not_placed_in_unique :
    (do_compare fsA [("/q/a", mdA)] false false false false false false false
        [("/q/a", mdA)]).map
      (fun out => (out.2.unique, out.2.skipped_self, out.2.actual_matches)) =
      Except.ok ([], ["/q/a"], []) := by rfl

/-! ## Claim C3 -/

/-- Claim C3: the claim states that every query file's candidate lookup uses
the caller's attribute selection with the query file's own values,
independently of previously processed files. The code contradicts it:
`do_compare` overwrites the boolean flag variables with metadata values
(comparesession.py:221-249), so after the extensionless first file
`/q/noext` (whose `file_type` is the falsy `""`), the `file_type` variable
is falsy and the second file `/q/b.txt` is looked up with a WILDCARD file
type even though the caller passed `file_type=True`. The wildcard lookup
admits `/c/b.jpg` (equal size and content, different extension), which is
then recorded as an actual match - while the lookup the claim specifies,
`file_type = some ".txt"`, returns no candidate at all. -/
theorem do_compare_file_type_flag_overwritten :
    (do_compare fsShadow [("/c/b.jpg", mdJpg)] false true false false false false false
        [("/q/noext", mdNoext), ("/q/b.txt", mdTxt)]).map
      (fun out => out.2.actual_matches) = Except.ok [("/q/b.txt", ["/c/b.jpg"])] ∧
    get_intersection [("/c/b.jpg", mdJpg)] mdTxt.size none (some mdTxt.file_type)
      none none none none = [] := by
  exact ⟨rfl, rfl⟩

/-! ## Claim C7 -/

/-- Claim C7: the scan engine's read-permission decision is a pure function
of the mode bits, file ownership and testing identity: the user-read bit
(bit 8) when the testing uid equals the file's uid, else the group-read bit
(bit 5) when the testing gid equals the file's gid, else the other-read bit
(bit 2); in particular an owner with a clear user-read bit is denied
regardless of the group/other bits. -/
theorem has_read_permissions_pure_bit_function (st_mode file_uid file_gid uid gid : Nat) :
    _has_read_permissions st_mode file_uid file_gid uid gid =
      (if file_uid = uid then st_mode.testBit 8
       else if file_gid = gid then st_mode.testBit 5
       else st_mode.testBit 2) := by
  have h : ∀ i, (decide (Nat.land (2 ^ i) st_mode ≠ 0)) = st_mode.testBit i := by
    intro i
    have := Nat.two_pow_and st_mode i
    have hl : Nat.land (2 ^ i) st_mode = 2 ^ i * (st_mode.testBit i).toNat := this
    cases hb : st_mode.testBit i <;>
      simp [hl, hb, pow_ne_zero]
  unfold _has_read_permissions
  have h8 := h 8
  have h5 := h 5
  have h2 := h 2
  norm_num at h8 h5 h2
  split_ifs <;> simp_all

/-! ## Claim C6 -/

/-- Characterization of the embedded `re.search`: it succeeds exactly when
the regex matches some contiguous slice of the string, starting at ANY
position. -/
theorem re_search_iff (r : Regex) (s : String) :
    re_search r s = true ↔ ∃ i j, rmatch r ((s.toList.drop i).take j) = true := by
  unfold re_search matchesSomePre
  rw [List.any_eq_true]
  constructor
  · rintro ⟨i, _, h⟩
    rw [List.any_eq_true] at h
    obtain ⟨j, _, h⟩ := h
    exact ⟨i, j, h⟩
  · rintro ⟨i, j, h⟩
    by_cases hi : i ≤ s.toList.length
    · refine ⟨i, List.mem_range.mpr (by omega), ?_⟩
      rw [List.any_eq_true]
      by_cases hj : j ≤ (s.toList.drop i).length
      · exact ⟨j, List.mem_range.mpr (by omega), h⟩
      · refine ⟨(s.toList.drop i).length, List.mem_range.mpr (by omega), ?_⟩
        rw [List.take_length]
        rwa [List.take_of_length_le (by omega)] at h
    · have h1 : s.toList.drop i = [] := List.drop_eq_nil_of_le (by omega)
      refine ⟨s.toList.length, List.mem_range.mpr (by omega), ?_⟩
      rw [List.any_eq_true]
      have h2 : s.toList.drop s.toList.length = [] := List.drop_eq_nil_of_le le_rfl
      refine ⟨0, List.mem_range.mpr (by omega), ?_⟩
      rw [h2]
      rw [h1] at h
      simpa using h

/-- Characterization of the embedded `re.match`: it succeeds exactly when
the regex matches some PREFIX of the string (anchored at position 0). -/
theorem re_match_iff (r : Regex) (s : String) :
    re_match r s = true ↔ ∃ j, rmatch r (s.toList.take j) = true := by
  unfold re_match matchesSomePre
  rw [List.any_eq_true]
  constructor
  · rintro ⟨j, _, h⟩
    exact ⟨j, h⟩
  · rintro ⟨j, h⟩
    by_cases hj : j ≤ s.toList.length
    · exact ⟨j, List.mem_range.mpr (by omega), h⟩
    · refine ⟨s.toList.length, List.mem_range.mpr (by omega), ?_⟩
      rw [List.take_length]
      rwa [List.take_of_length_le (by omega)] at h

/-- Claim C6 (amended): only the current scan engine's matcher
(`ScanFiles._match_regex`, built on `re.search`) treats a regex as matching
iff it matches at ANY position of the tested string; the legacy
`ScanDir.match_regex` (built on `re.match`) treats it as matching iff it
matches a prefix anchored at the START of the string. -/
theorem match_regex_position_semantics (regexes : List Regex) (items : List String) :
    (_match_regex regexes items = true ↔
      ∃ r ∈ regexes, ∃ s ∈ items, ∃ i j, rmatch r ((s.toList.drop i).take j) = true) ∧
    (ScanDir.match_regex regexes items = true ↔
      ∃ r ∈ regexes, ∃ s ∈ items, ∃ j, rmatch r (s.toList.take j) = true) := by
  constructor
  · unfold _match_regex
    rw [List.any_eq_true]
    constructor
    · rintro ⟨r, hr, h⟩
      rw [List.any_eq_true] at h
      obtain ⟨s, hs, h⟩ := h
      exact ⟨r, hr, s, hs, (re_search_iff r s).mp h⟩
    · rintro ⟨r, hr, s, hs, h⟩
      exact ⟨r, hr, List.any_eq_true.mpr ⟨s, hs, (re_search_iff r s).mpr h⟩⟩
  · unfold ScanDir.match_regex
    rw [List.any_eq_true]
    constructor
    · rintro ⟨r, hr, h⟩
      rw [List.any_eq_true] at h
      obtain ⟨s, hs, h⟩ := h
      exact ⟨r, hr, s, hs, (re_match_iff r s).mp h⟩
    · rintro ⟨r, hr, s, hs, h⟩
      exact ⟨r, hr, List.any_eq_true.mpr ⟨s, hs, (re_match_iff r s).mpr h⟩⟩

/-- Claim C6, counterexample: the claim states that EVERY regex filter of
the scan engine uses unanchored search semantics, but the legacy matcher
`ScanDir.match_regex` (scandir.py:126, `re.match`) does not: the regex `b`
matches inside the string `ab` at position 1 (and the current engine's
`ScanFiles._match_regex` accordingly reports a match), yet
`ScanDir.match_regex` reports NO match. -/
theorem scandir_match_regex_is_anchored :
    ScanDir.match_regex [Regex.chr 'b'] ["ab"] = false ∧
    rmatch (Regex.chr 'b') (("ab".toList.drop 1).take 1) = true ∧
    _match_regex [Regex.chr 'b'] ["ab"] = true := by
  refine ⟨by decide, by decide, by decide⟩

/-! ## Claim C8 -/

/-- The trace of the `do_compare` loop: the k-th checkpoint (1-based value
`c + k`) carries the state reached after completely processing only the
first `k - 1` query files - the yield precedes the body. -/
theorem do_compare_loop_trace (fs : FS) (can : List (String × Metadata)) (sc : Bool) :
    ∀ (l : List (String × Metadata)) (fl : Flags) (st : CompareState) (c : Nat),
    do_compare_loop fs can sc fl st c l =
      ((List.range l.length).map
        (fun k => (c + k + 1, (do_compare_files fs can sc (fl, st) (l.take k)).2)),
       (do_compare_files fs can sc (fl, st) l).2)
  | [], fl, st, c => by
      simp [do_compare_loop, do_compare_files]
  | e :: rest, fl, st, c => by
      cases hx : do_compare_file fs can sc (fl, st) e with
      | mk fl' st' =>
        have ih := do_compare_loop_trace fs can sc rest fl' st' (c + 1)
        simp only [do_compare_loop, hx, ih, do_compare_files, List.foldl_cons]
        refine Prod.ext ?_ rfl
        simp only [List.length_cons, List.range_succ_eq_map, List.map_cons, List.map_map]
        refine congrArg₂ _ ?_ ?_
        · simp [List.take_zero, do_compare_files]
        · apply List.map_congr_left
          intro k _
          simp only [Function.comp, List.take_succ_cons, List.foldl_cons, hx]
          refine congrArg₂ _ (by omega) rfl

mutual

/-- Every checkpoint of `scanEntry` is offered at a unit-boundary state
(appearing in the reference unit-state sequence), the final states agree,
and each checkpoint value is the `checked_count` of its state. -/
def scanEntry_complete_units (opts : Options) (fs : FS) (uid gid : Nat) (root_p : String) :
    ∀ (st : ScanState) (e : Entry),
    List.Sublist ((scanEntry opts fs uid gid root_p st e).1.map Prod.snd)
        (unitStatesEntry opts fs uid gid root_p st e).1 ∧
    (scanEntry opts fs uid gid root_p st e).2 = (unitStatesEntry opts fs uid gid root_p st e).2 ∧
    ∀ p ∈ (scanEntry opts fs uid gid root_p st e).1, p.1 = p.2.checked_count
  | st, .file p => by
      refine ⟨?_, ?_, ?_⟩
      · simp only [scanEntry, unitStatesEntry]
        split <;> simp
      · rfl
      · intro q hq
        simp only [scanEntry] at hq
        split at hq
        · simp at hq
          simp [hq]
        · simp at hq
  | st, .dir p children => by
      refine ⟨?_, ?_, ?_⟩
      · simp only [scanEntry, unitStatesEntry]
        split
        · split
          · simp
          · split
            · simp
            · exact (scanEntries_complete_units opts fs uid gid root_p st children).1
        · split <;> simp
      · simp only [scanEntry, unitStatesEntry]
        split
        · split
          · rfl
          · split
            · rfl
            · exact (scanEntries_complete_units opts fs uid gid root_p st children).2.1
        · rfl
      · intro q hq
        simp only [scanEntry] at hq
        split at hq
        · split at hq
          · simp at hq
            simp [hq]
          · split at hq
            · simp at hq
              simp [hq]
            · exact (scanEntries_complete_units opts fs uid gid root_p st children).2.2 q hq
        · split at hq
          · simp at hq
            simp [hq]
          · simp at hq

/-- The same for a whole directory listing. -/
def scanEntries_complete_units (opts : Options) (fs : FS) (uid gid : Nat) (root_p : String) :
    ∀ (st : ScanState) (l : List Entry),
    List.Sublist ((scanEntries opts fs uid gid root_p st l).1.map Prod.snd)
        (unitStatesEntries opts fs uid gid root_p st l).1 ∧
    (scanEntries opts fs uid gid root_p st l).2 = (unitStatesEntries opts fs uid gid root_p st l).2 ∧
    ∀ p ∈ (scanEntries opts fs uid gid root_p st l).1, p.1 = p.2.checked_count
  | _, [] => ⟨List.Sublist.refl _, rfl, by intro q hq; simp [scanEntries] at hq⟩
  | st, e :: rest => by
      obtain ⟨h1, h2, h3⟩ := scanEntry_complete_units opts fs uid gid root_p st e
      obtain ⟨h1', h2', h3'⟩ :=
        scanEntries_complete_units opts fs uid gid root_p
          (scanEntry opts fs uid gid root_p st e).2 rest
      refine ⟨?_, ?_, ?_⟩
      · simp only [scanEntries, unitStatesEntries, ← h2]
        simp only [List.map_append]
        exact List.Sublist.append h1 h1'
      · simp only [scanEntries, unitStatesEntries, ← h2]
        exact h2'
      · intro q hq
        simp only [scanEntries, List.mem_append] at hq
        rcases hq with hq | hq
        · exact h3 q hq
        · exact h3' q hq

end

/-- Claim C8 (amended): checkpoint placement. For the scan, every checkpoint
offered by `scan_directory` is offered at a complete-unit state (a state of
the reference unit-boundary sequence: the current file fully scanned or the
current directory fully skip-counted), exhaustion reaches the same final
state as uninterrupted processing, and each checkpoint value is the
`checked_count` of its state. For `do_compare`, however, the checkpoint
carrying the running count `k` is offered BEFORE the k-th query file is
processed: its state is the state after completely processing only the
first `k - 1` files (and exhaustion reaches the full fold) - so no unit is
ever left partially processed, but a caller that stops consuming at a
compare checkpoint leaves the current query file entirely unprocessed
rather than finished. -/
theorem progress_checkpoint_placement :
    (∀ (opts : Options) (fs : FS) (uid gid : Nat) (root_p : String) (st : ScanState)
        (children : List Entry),
      List.Sublist ((scan_directory opts fs uid gid root_p st children).1.map Prod.snd)
          (unitStatesEntries opts fs uid gid root_p st children).1 ∧
      (scan_directory opts fs uid gid root_p st children).2 =
        (unitStatesEntries opts fs uid gid root_p st children).2 ∧
      ∀ p ∈ (scan_directory opts fs uid gid root_p st children).1,
        p.1 = p.2.checked_count) ∧
    (∀ (fs : FS) (can : List (String × Metadata)) (sc : Bool) (fl : Flags)
        (st : CompareState) (c : Nat) (l : List (String × Metadata)),
      (do_compare_loop fs can sc fl st c l).1 =
        (List.range l.length).map
          (fun k => (c + k + 1, (do_compare_files fs can sc (fl, st) (l.take k)).2)) ∧
      (do_compare_loop fs can sc fl st c l).2 =
        (do_compare_files fs can sc (fl, st) l).2) := by
  constructor
  · intro opts fs uid gid root_p st children
    exact scanEntries_complete_units opts fs uid gid root_p st children
  · intro fs can sc fl st c l
    rw [do_compare_loop_trace fs can sc l fl st c]
    exact ⟨rfl, rfl⟩

/-- Claim C8, counterexample: the claim states that `do_compare` yields the
running count for a query file only after that file's candidate lookup and
comparisons have finished. Evaluating the code on a one-file session with
no candidates shows the opposite: the checkpoint with count 1 is offered
while the session state is still the INITIAL state (in particular `/q/a`
has not yet been classified Unique), and only exhaustion past that
checkpoint produces the processed state. -/
theorem do_compare_yields_before_processing :
    (do_compare fsA [] false false false false false false false [("/q/a", mdA)]).map
      (fun out => (out.1, out.2.unique)) =
      Except.ok ([(1, CompareState.init)], ["/q/a"]) := by rfl

/-! ## Claim C2: amended theorem -/

theorem sadd_mem (l : List String) (x y : String) : x ∈ sadd l y ↔ x ∈ l ∨ x = y := by
  unfold sadd
  split
  · rename_i h
    exact ⟨Or.inl, fun h' => h'.elim id (fun hx => hx ▸ h)⟩
  · simp [List.mem_append]

theorem do_compare_candidate_unique (fs : FS) (sc : Bool) (file_p : String)
    (acc : CompareState × Bool × Bool) (b : String) :
    ((do_compare_candidate fs sc file_p acc b).1).unique = acc.1.unique := by
  obtain ⟨st, m, s⟩ := acc
  unfold do_compare_candidate append_match
  dsimp only
  repeat' split
  all_goals rfl

theorem do_compare_candidate_skipped_self_mono (fs : FS) (sc : Bool) (file_p : String)
    (acc : CompareState × Bool × Bool) (b : String) (x : String)
    (h : x ∈ acc.1.skipped_self) :
    x ∈ ((do_compare_candidate fs sc file_p acc b).1).skipped_self := by
  obtain ⟨st, m, s⟩ := acc
  unfold do_compare_candidate append_match
  dsimp only
  repeat' split
  all_goals first
    | exact h
    | exact (sadd_mem _ _ _).mpr (Or.inl h)

theorem candFold_unique (fs : FS) (sc : Bool) (file_p : String) (l : List String) :
    ∀ (acc : CompareState × Bool × Bool),
    ((l.foldl (do_compare_candidate fs sc file_p) acc).1).unique = acc.1.unique := by
  induction l with
  | nil => intro acc; rfl
  | cons b rest ih =>
      intro acc
      rw [List.foldl_cons, ih]
      exact do_compare_candidate_unique fs sc file_p acc b

theorem candFold_skipped_self_mono (fs : FS) (sc : Bool) (file_p : String) (l : List String) :
    ∀ (acc : CompareState × Bool × Bool) (x : String), x ∈ acc.1.skipped_self →
    x ∈ ((l.foldl (do_compare_candidate fs sc file_p) acc).1).skipped_self := by
  induction l with
  | nil => intro acc x h; exact h
  | cons b rest ih =>
      intro acc x h
      rw [List.foldl_cons]
      exact ih _ x (do_compare_candidate_skipped_self_mono fs sc file_p acc b x h)

theorem matchAttr_updateStr (v : PyV) (s : String) :
    matchAttr (PyV.toOptStr (updateStrFlag v s)) s = true := by
  unfold updateStrFlag
  split <;> simp [PyV.toOptStr, matchAttr]

theorem matchAttr_updateNum (v : PyV) (n : Int) :
    matchAttr (PyV.toOptInt (updateNumFlag v n)) n = true := by
  unfold updateNumFlag
  split <;> simp [PyV.toOptInt, matchAttr]

theorem candidatesOf_self (f : String) (md : Metadata) (fl : Flags) :
    candidatesOf [(f, md)] (reassignFlags fl md) md = [f] := by
  simp [candidatesOf, reassignFlags, get_intersection, matchAttr_updateStr, matchAttr_updateNum]

theorem do_compare_file_self_only (fs : FS) (sc : Bool) (fl : Flags) (st : CompareState)
    (f : String) (md : Metadata) :
    do_compare_file fs [(f, md)] sc (fl, st) (f, md) =
      (reassignFlags fl md, { st with skipped_self := sadd st.skipped_self f }) := by
  unfold do_compare_file
  dsimp only
  rw [candidatesOf_self]
  simp [do_compare_candidate]

theorem do_compare_file_unique_cases (fs : FS) (can : List (String × Metadata)) (sc : Bool)
    (fl : Flags) (st : CompareState) (g : String) (md : Metadata) :
    (do_compare_file fs can sc (fl, st) (g, md)).2.unique = sadd st.unique g ∨
    (do_compare_file fs can sc (fl, st) (g, md)).2.unique = st.unique := by
  unfold do_compare_file
  dsimp only
  split
  · exact Or.inl rfl
  · split
    · left
      show (add_unique _ g).unique = _
      unfold add_unique
      rw [candFold_unique]
    · right
      exact candFold_unique fs sc g _ _

theorem do_compare_file_skipped_self_mono (fs : FS) (can : List (String × Metadata)) (sc : Bool)
    (fl : Flags) (st : CompareState) (g : String) (md : Metadata) (x : String)
    (h : x ∈ st.skipped_self) :
    x ∈ (do_compare_file fs can sc (fl, st) (g, md)).2.skipped_self := by
  unfold do_compare_file
  dsimp only
  split
  · exact h
  · split
    · exact candFold_skipped_self_mono fs sc g _ _ x h
    · exact candFold_skipped_self_mono fs sc g _ _ x h

theorem do_compare_files_no_f (fs : FS) (can : List (String × Metadata)) (sc : Bool)
    (f : String) :
    ∀ (l : List (String × Metadata)) (acc : Flags × CompareState),
      f ∉ l.map Prod.fst →
      ((f ∈ acc.2.skipped_self → f ∈ (do_compare_files fs can sc acc l).2.skipped_self) ∧
       (f ∉ acc.2.unique → f ∉ (do_compare_files fs can sc acc l).2.unique)) := by
  intro l
  induction l with
  | nil => intro acc _; exact ⟨id, id⟩
  | cons e rest ih =>
      intro acc hnotin
      obtain ⟨fl, st⟩ := acc
      obtain ⟨g, md⟩ := e
      simp only [List.map_cons, List.mem_cons, not_or] at hnotin
      obtain ⟨hgf, hrest⟩ := hnotin
      have step := do_compare_file_unique_cases fs can sc fl st g md
      have stepss := do_compare_file_skipped_self_mono fs can sc fl st g md f
      have ihh := ih (do_compare_file fs can sc (fl, st) (g, md)) hrest
      unfold do_compare_files at ihh ⊢
      rw [List.foldl_cons]
      refine ⟨fun h => ihh.1 (stepss h), fun h => ihh.2 ?_⟩
      rcases step with hs | hs
      · rw [hs, sadd_mem]
        rintro (hmem | heq)
        · exact h hmem
        · exact hgf heq
      · rw [hs]; exact h

theorem do_compare_files_self_only (fs : FS) (sc : Bool) (f : String) (md : Metadata) :
    ∀ (l : List (String × Metadata)) (acc : Flags × CompareState),
      (f, md) ∈ l → (l.map Prod.fst).Nodup → f ∉ acc.2.unique →
      f ∈ (do_compare_files fs [(f, md)] sc acc l).2.skipped_self ∧
      f ∉ (do_compare_files fs [(f, md)] sc acc l).2.unique := by
  intro l
  induction l with
  | nil => intro acc h; exact absurd h (List.not_mem_nil _)
  | cons e rest ih =>
      intro acc hmem hnd hnotu
      obtain ⟨fl, st⟩ := acc
      obtain ⟨g, mdg⟩ := e
      simp only [List.map_cons, List.nodup_cons] at hnd
      obtain ⟨hgnotin, hndrest⟩ := hnd
      unfold do_compare_files
      rw [List.foldl_cons]
      rcases List.mem_cons.mp hmem with heq | htail
      · injection heq with h1 h2
        subst h1
        subst h2
        rw [do_compare_file_self_only]
        have hniq := do_compare_files_no_f fs [(f, md)] sc f rest
          (reassignFlags fl md, { st with skipped_self := sadd st.skipped_self f }) hgnotin
        unfold do_compare_files at hniq
        exact ⟨hniq.1 ((sadd_mem _ _ _).mpr (Or.inr rfl)), hniq.2 hnotu⟩
      · have hfg : f ≠ g := by
          intro hh
          exact hgnotin (hh ▸ List.mem_map_of_mem Prod.fst htail)
        have hnotu' : f ∉ (do_compare_file fs [(f, md)] sc (fl, st) (g, mdg)).2.unique := by
          rcases do_compare_file_unique_cases fs [(f, md)] sc fl st g mdg with hs | hs
          · rw [hs, sadd_mem]
            rintro (hmem2 | heq2)
            · exact hnotu hmem2
            · exact hfg heq2
          · rw [hs]
            exact hnotu
        have ihh := ih (do_compare_file fs [(f, md)] sc (fl, st) (g, mdg)) htail hndrest hnotu'
        unfold do_compare_files at ihh
        exact ihh

/-- Claim C2 (amended): for every query file processed by `do_compare` whose
candidate set consists of exactly one path equal to the query file's own
path (here: the canonical scan holds exactly that file, so every attribute
combination returns only it), and for which no positive match is recorded,
the query file is recorded in the self-skip bookkeeping set and is NOT
placed in the Unique set: the code's condition
`not skip or (skip and len(possible_matches) > 1)` excludes the
self-only-candidate case from Unique. -/
theorem do_compare_self_only_not_unique
    (fs : FS) (name file_type parent rel_path ctime mtime skip_checksum : Bool)
    (query_files : List (String × Metadata)) (f : String) (md : Metadata)
    (hmem : (f, md) ∈ query_files) (hnd : (query_files.map Prod.fst).Nodup)
    (hok : skip_checksum = true → name = true) :
    ∃ out, do_compare fs [(f, md)] name file_type parent rel_path ctime mtime skip_checksum
        query_files = Except.ok out ∧
      f ∈ out.2.skipped_self ∧ f ∉ out.2.unique := by
  unfold do_compare
  rw [if_neg (fun hc => hc.2 (hok hc.1))]
  refine ⟨_, rfl, ?_⟩
  rw [do_compare_loop_trace]
  dsimp only
  exact do_compare_files_self_only fs skip_checksum f md query_files
    (Flags.init name file_type parent rel_path ctime mtime, CompareState.init) hmem hnd
    (List.not_mem_nil f)

/-- Witness for the amended Claim C2 theorem at a concrete session: the
query scan and the canonical scan both hold exactly `/q/a`. -/
theorem do_compare_self_only_not_unique_witness :
    ∃ out, do_compare fsA [("/q/a", mdA)] false false false false false false false
        [("/q/a", mdA)] = Except.ok out ∧
      "/q/a" ∈ out.2.skipped_self ∧ "/q/a" ∉ out.2.unique :=
  do_compare_self_only_not_unique fsA false false false false false false false
    [("/q/a", mdA)] "/q/a" mdA (List.mem_singleton.mpr rfl) (by simp)
    (fun h => absurd h (by simp))

/-! ## Claim C5 -/

/-- The single evaluation step of the candidate loop when the comparator
raises: the error is caught, each side is added to its error set exactly
when it no longer exists, and the local `match` / `skip` flags are left
untouched. -/
theorem do_compare_candidate_error_eq (fs : FS) (st : CompareState) (m s : Bool)
    (file_p b : String) (hneq : file_p ≠ b)
    (hraise : comparefiles_compare fs file_p b (get_checksum st b) = Except.error ()) :
    do_compare_candidate fs false file_p (st, m, s) b =
      (let st1 := if (get_checksum st b).isSome then
          { st with pre_computed_checksum_count := st.pre_computed_checksum_count + 1 } else st
       let st2 := if !(ospath_exists fs file_p) then
          { st1 with source_error_files := sadd st1.source_error_files file_p } else st1
       let st3 := if !(ospath_exists fs b) then
          { st2 with possible_match_error_files := sadd st2.possible_match_error_files b } else st2
       (st3, m, s)) := by
  unfold do_compare_candidate
  dsimp only
  rw [if_neg hneq]
  simp only [Bool.false_eq_true, if_false, hraise]

/-- Claim C5: whenever the comparator raises a precondition failure for the
pair (query file `file_p`, candidate `b`) during `do_compare`, `file_p` is
in the source-error set afterwards iff it no longer exists (or was already
there), `b` is in the possible-match-error set afterwards iff it no longer
exists (or was already there), no other path's membership and no other
session field changes, the candidate loop proceeds with the next candidate
from the classified state, and the exception never propagates out of
`do_compare` (which returns `ok` whenever its own entry assertion holds). -/
theorem do_compare_precondition_failure_handled (fs : FS) (st : CompareState) (m s : Bool)
    (file_p b : String) (rest : List String) (hneq : file_p ≠ b)
    (hraise : comparefiles_compare fs file_p b (get_checksum st b) = Except.error ()) :
    ((do_compare_candidate fs false file_p (st, m, s) b).2 = (m, s)) ∧
    (file_p ∈ (do_compare_candidate fs false file_p (st, m, s) b).1.source_error_files ↔
      ospath_exists fs file_p = false ∨ file_p ∈ st.source_error_files) ∧
    (b ∈ (do_compare_candidate fs false file_p (st, m, s) b).1.possible_match_error_files ↔
      ospath_exists fs b = false ∨ b ∈ st.possible_match_error_files) ∧
    (∀ x, x ≠ file_p →
      ((x ∈ (do_compare_candidate fs false file_p (st, m, s) b).1.source_error_files) ↔
        x ∈ st.source_error_files)) ∧
    (∀ x, x ≠ b →
      ((x ∈ (do_compare_candidate fs false file_p (st, m, s) b).1.possible_match_error_files) ↔
        x ∈ st.possible_match_error_files)) ∧
    (do_compare_candidate fs false file_p (st, m, s) b).1.unique = st.unique ∧
    (do_compare_candidate fs false file_p (st, m, s) b).1.actual_matches = st.actual_matches ∧
    (do_compare_candidate fs false file_p (st, m, s) b).1.skipped_self = st.skipped_self ∧
    (do_compare_candidate fs false file_p (st, m, s) b).1.checksum = st.checksum ∧
    (List.foldl (do_compare_candidate fs false file_p) (st, m, s) (b :: rest) =
      List.foldl (do_compare_candidate fs false file_p)
        ((do_compare_candidate fs false file_p (st, m, s) b).1, m, s) rest) ∧
    (∀ (can : List (String × Metadata)) (n ft pr rp ct mt sc : Bool)
        (query : List (String × Metadata)), (sc = true → n = true) →
      ∃ out, do_compare fs can n ft pr rp ct mt sc query = Except.ok out) := by
  have he := do_compare_candidate_error_eq fs st m s file_p b hneq hraise
  refine ⟨?_, ?_, ?_, ?_, ?_, ?_, ?_, ?_, ?_, ?_, ?_⟩
  · rw [he]
  · rw [he]
    dsimp only
    by_cases hA : ospath_exists fs file_p <;> by_cases hB : ospath_exists fs b <;>
      by_cases hC : (get_checksum st b).isSome <;> simp [hA, hB, hC, sadd_mem]
  · rw [he]
    dsimp only
    by_cases hA : ospath_exists fs file_p <;> by_cases hB : ospath_exists fs b <;>
      by_cases hC : (get_checksum st b).isSome <;> simp [hA, hB, hC, sadd_mem]
  · intro x hx
    rw [he]
    dsimp only
    by_cases hA : ospath_exists fs file_p <;> by_cases hB : ospath_exists fs b <;>
      by_cases hC : (get_checksum st b).isSome <;> simp [hA, hB, hC, sadd_mem, hx]
  · intro x hx
    rw [he]
    dsimp only
    by_cases hA : ospath_exists fs file_p <;> by_cases hB : ospath_exists fs b <;>
      by_cases hC : (get_checksum st b).isSome <;> simp [hA, hB, hC, sadd_mem, hx]
  · rw [he]
    dsimp only
    split_ifs <;> rfl
  · rw [he]
    dsimp only
    split_ifs <;> rfl
  · rw [he]
    dsimp only
    split_ifs <;> rfl
  · rw [he]
    dsimp only
    split_ifs <;> rfl
  · rw [List.foldl_cons, he]
  · intro can n ft pr rp ct mt sc query hsc
    exact ⟨_, by unfold do_compare; rw [if_neg (fun hc => hc.2 (hsc hc.1))]⟩

/-- Witness for the Claim C5 theorem at a concrete input: the query file
`/q/a` has vanished while the candidate `/c/b` still exists, so the
comparator raises, `/q/a` is classified into the source-error set and
`/c/b` is NOT classified into the possible-match-error set. -/
theorem do_compare_precondition_failure_handled_witness :
    "/q/a" ∈ (do_compare_candidate fsVanishedA false "/q/a" (CompareState.init, false, false)
        "/c/b").1.source_error_files ∧
    "/c/b" ∉ (do_compare_candidate fsVanishedA false "/q/a" (CompareState.init, false, false)
        "/c/b").1.possible_match_error_files := by
  have h := do_compare_precondition_failure_handled fsVanishedA CompareState.init false false
    "/q/a" "/c/b" [] (by decide) (by rfl)
  refine ⟨h.2.1.mpr (Or.inl (by rfl)), fun hmem => ?_⟩
  rcases h.2.2.1.mp hmem with hfalse | hmem0
  · exact absurd hfalse (by decide)
  · exact absurd hmem0 (List.not_mem_nil _)
